import Mathlib

/-!
Shallow embedding of the core of the FIT1045 travel-planner repository
(`locations.py`, `vehicles.py`, `trip.py`, `path_finding.py`).

Modelling conventions:
* Python `float` travel times are modelled as `WithTop ℤ` (`⊤` stands for
  `math.inf`); every finite travel time produced by the code is an integer
  (a `ceil` of a division, or a stored integer parameter).
* Python's global mutable registries (`Country.countries`, the per-country
  `cities` list) are modelled by explicit state passing.
* `geopy.great_circle` is not part of the repository's sources; it is
  modelled from the spec (mean-Earth-radius spherical model) below.
-/

namespace Assignment

/-- CapitalType enumeration from `locations.py` (`primary`, `admin`, `minor`,
`unspecified`). -/
inductive CapitalType where
  | primary
  | admin
  | minor
  | unspecified
  deriving DecidableEq, Repr

/-- Country data from `locations.py`: a name and an ISO3 code.  The Python
class also carries a mutable `cities` list; that list is modelled as explicit
state where it is needed (`Country.get_cities`, registration). -/
structure Country where
  name : String
  iso3 : String
  deriving DecidableEq, Repr

/-- Registry state for `Country.countries`, Python's global dict from country
names to instances. -/
def Registry : Type := String → Option Country

/-- Python's `str.upper()`, character by character (`String.toUpper` computes
the same string but is not kernel-reducible). -/
def strUpper (s : String) : String := ⟨s.data.map Char.toUpper⟩

/-- Embedding of `Country.__init__`: creates the instance (upper-casing the
ISO3 code) and assigns `Country.countries[name] = self`, overwriting any
existing entry.  The dict is threaded explicitly. -/
def Country.init (name iso3 : String) (reg : Registry) : Country × Registry :=
  let c : Country := ⟨name, strUpper iso3⟩
  (c, fun k => if k = name then some c else reg k)

/-- City data from `locations.py`.  The Python object stores a reference to
its `Country` instance; coordinates are (latitude, longitude) in degrees. -/
structure City where
  name : String
  coordinate : ℝ × ℝ
  country : Country
  capital_type : CapitalType
  city_id : String

/-- Degrees to radians, as done inside geopy before the spherical formula. -/
noncomputable def radians (x : ℝ) : ℝ := x * (Real.pi / 180)

/-- Modelled from the spec: geopy's `great_circle(...).kilometers`, which is
not part of `src/` — the great-circle distance on the mean-Earth-radius
(6371.009 km) spherical model, via the spherical law of cosines. -/
noncomputable def great_circle (p q : ℝ × ℝ) : ℝ :=
  6371.009 * Real.arccos
    (Real.sin (radians p.1) * Real.sin (radians q.1) +
      Real.cos (radians p.1) * Real.cos (radians q.1) *
        Real.cos (radians p.2 - radians q.2))

/-- Embedding of `City.distance`: the great-circle distance in kilometers,
rounded to the nearest integer by Python's `round`.  (Python rounds ties to
even while `round` here rounds ties up; no claim depends on half-integer
ties, and the great-circle value is irrational away from zero.) -/
noncomputable def City.distance (a b : City) : ℤ :=
  round (great_circle a.coordinate b.coordinate)

theorem great_circle_comm (p q : ℝ × ℝ) : great_circle p q = great_circle q p := by
  unfold great_circle
  congr 1
  rw [Real.cos_sub, Real.cos_sub]
  ring_nf

theorem great_circle_self (p : ℝ × ℝ) : great_circle p p = 0 := by
  unfold great_circle
  rw [sub_self, Real.cos_zero, mul_one, ← sq, ← sq,
    Real.sin_sq_add_cos_sq, Real.arccos_one, mul_zero]

theorem City.distance_comm (a b : City) : a.distance b = b.distance a := by
  unfold City.distance
  rw [great_circle_comm]

theorem City.distance_self (a : City) : a.distance a = 0 := by
  unfold City.distance
  rw [great_circle_self, round_zero]

/-- Travel times: `math.inf` is `⊤`, every finite value produced by the code
is an integer. -/
abbrev TravelTime : Type := WithTop ℤ

/-- Embedding of the abstract class `Vehicle` from `vehicles.py`: its single
capability is the `compute_travel_time` method. -/
structure Vehicle where
  compute_travel_time : City → City → TravelTime

/-- CrappyCrepeCar parameters (`vehicles.py`). -/
structure CrappyCrepeCar where
  speed : ℤ

/-- Embedding of `CrappyCrepeCar.__init__`: stores the speed. The source
performs no validation of the parameter. -/
def CrappyCrepeCar.init (speed : ℤ) : CrappyCrepeCar := ⟨speed⟩

/-- Embedding of `CrappyCrepeCar.compute_travel_time`:
`ceil(d / self.speed)`.  (Python raises ZeroDivisionError for speed 0; Lean's
division by zero yields 0 there — no claim touches a zero speed.) -/
noncomputable def CrappyCrepeCar.compute_travel_time (v : CrappyCrepeCar)
    (departure arrival : City) : TravelTime :=
  ((⌈(departure.distance arrival : ℝ) / (v.speed : ℝ)⌉ : ℤ) : TravelTime)

noncomputable def CrappyCrepeCar.toVehicle (v : CrappyCrepeCar) : Vehicle :=
  ⟨v.compute_travel_time⟩

/-- DiplomacyDonutDinghy parameters (`vehicles.py`). -/
structure DiplomacyDonutDinghy where
  in_country_speed : ℤ
  between_primary_speed : ℤ

/-- Embedding of `DiplomacyDonutDinghy.__init__`: stores the two speeds, with
no validation. -/
def DiplomacyDonutDinghy.init (in_country_speed between_primary_speed : ℤ) :
    DiplomacyDonutDinghy := ⟨in_country_speed, between_primary_speed⟩

/-- Embedding of `DiplomacyDonutDinghy.compute_travel_time`: infinite when the
cities are in different countries and either is not a primary capital,
otherwise `ceil(d / speed)` with the speed picked by the same-country test.
(`departure.country == arrival.country` compares the registry-shared
instances; modelled as structural equality of the country data.) -/
noncomputable def DiplomacyDonutDinghy.compute_travel_time
    (v : DiplomacyDonutDinghy) (departure arrival : City) : TravelTime :=
  let in_country := departure.country = arrival.country
  if ¬in_country ∧
      (departure.capital_type ≠ CapitalType.primary ∨
        arrival.capital_type ≠ CapitalType.primary) then
    ⊤
  else
    ((⌈(departure.distance arrival : ℝ) /
        ((if in_country then v.in_country_speed else v.between_primary_speed : ℤ) : ℝ)⌉ : ℤ) :
      TravelTime)

noncomputable def DiplomacyDonutDinghy.toVehicle (v : DiplomacyDonutDinghy) : Vehicle :=
  ⟨v.compute_travel_time⟩

/-- TeleportingTarteTrolley parameters (`vehicles.py`). -/
structure TeleportingTarteTrolley where
  travel_time : ℤ
  max_distance : ℤ

/-- Embedding of `TeleportingTarteTrolley.__init__`: stores the two
parameters, with no validation. -/
def TeleportingTarteTrolley.init (travel_time max_distance : ℤ) :
    TeleportingTarteTrolley := ⟨travel_time, max_distance⟩

/-- Embedding of `TeleportingTarteTrolley.compute_travel_time`: infinite when
`d >= self.max_distance`, otherwise the constant `self.travel_time`. -/
noncomputable def TeleportingTarteTrolley.compute_travel_time
    (v : TeleportingTarteTrolley) (departure arrival : City) : TravelTime :=
  if departure.distance arrival ≥ v.max_distance then ⊤
  else (v.travel_time : TravelTime)

noncomputable def TeleportingTarteTrolley.toVehicle (v : TeleportingTarteTrolley) : Vehicle :=
  ⟨v.compute_travel_time⟩

/-- Trip from `trip.py`: a sequence of cities. -/
structure Trip where
  sequence : List City

/-- Embedding of `Trip.__init__`: a single-element sequence. -/
def Trip.init (departure : City) : Trip := ⟨[departure]⟩

/-- Embedding of `Trip.add_next_city`: appends to the sequence. -/
def Trip.add_next_city (t : Trip) (city : City) : Trip := ⟨t.sequence ++ [city]⟩

/-- Loop body of `Trip.total_travel_time` over the city sequence: accumulate
leg times, returning `inf` as soon as a leg is impossible. -/
def totalTravelTimeAux (v : Vehicle) : List City → TravelTime
  | [] => 0
  | [_] => 0
  | a :: b :: rest =>
      let time := v.compute_travel_time a b
      if time = ⊤ then ⊤ else time + totalTravelTimeAux v (b :: rest)

/-- Embedding of `Trip.total_travel_time`. -/
def Trip.total_travel_time (t : Trip) (v : Vehicle) : TravelTime :=
  totalTravelTimeAux v t.sequence

/-- Times of the consecutive legs of a trip, in order. -/
def Trip.legTimes (t : Trip) (v : Vehicle) : List TravelTime :=
  (t.sequence.zip t.sequence.tail).map fun p => v.compute_travel_time p.1 p.2

/-- Embedding of `Trip.find_fastest_vehicle`: computes all travel times,
takes `min` of that list (Python's `min` raises ValueError on an empty list,
modelled as `none`), then returns the first vehicle whose time equals the
minimum, paired with the minimum.  `List.min?` is exactly Python's
`min`: a left fold of binary `min` over a non-empty list. -/
def Trip.find_fastest_vehicle (t : Trip) (vehicles : List Vehicle) :
    Option (Vehicle × TravelTime) :=
  let travel_times := vehicles.map fun v => t.total_travel_time v
  match travel_times.min? with
  | none => none
  | some minimum =>
      match (vehicles.zip travel_times).find? (fun p => p.2 = minimum) with
      | some p => some (p.1, minimum)
      | none => none

/-- Ordered pairs `(cities[i], cities[j])` with `i < j`, the iteration order
of the nested loops in `plot_graph_for_vehicle`. -/
def cityPairs : List City → List (City × City)
  | [] => []
  | c :: rest => (rest.map fun d => (c, d)) ++ cityPairs rest

/-- Embedding of `plot_graph_for_vehicle` (`path_finding.py`), restricted to
the edge list it builds (nodes are all cities; the global `City.cities`
registry is passed explicitly).  The walrus expression
`weight := vehicle.compute_travel_time(source, destination) == inf` binds the
COMPARISON, so `weight` is the boolean result of the `== inf` test: when the
travel is impossible the pair is skipped, otherwise the edge is stored with
`weight=False`. -/
noncomputable def plot_graph_for_vehicle (vehicle : Vehicle) (cities : List City) :
    List (String × String × Bool) :=
  (cityPairs cities).filterMap fun p =>
    let weight := decide (vehicle.compute_travel_time p.1 p.2 = ⊤)
    if weight then none
    else some (p.1.city_id, p.2.city_id, weight)

/-- Embedding of `Country.get_cities`: Python's `if not capital_types` treats
both the default `None` and an explicitly empty list as "no filter".  The
country's mutable `cities` list is passed explicitly. -/
def Country.get_cities (cities : List City) :
    Option (List CapitalType) → List City
  | none => cities
  | some capital_types =>
      if capital_types = [] then cities
      else cities.filter fun city => city.capital_type ∈ capital_types

/-! Concrete cities and vehicles used by witnesses.  Coordinates are degrees;
none of the witness statements below needs to evaluate a great-circle
distance between distinct coordinates. -/

/-- Primary-capital city of country X, used by witnesses. -/
def cityA : City := ⟨"Alpha", ((0 : ℝ), (0 : ℝ)), ⟨"X", "XXX"⟩, CapitalType.primary, "1"⟩

/-- Admin-capital city of country X, used by witnesses. -/
def cityB : City := ⟨"Beta", ((0 : ℝ), (0 : ℝ)), ⟨"X", "XXX"⟩, CapitalType.admin, "2"⟩

/-- Melbourne, an `admin` capital of Australia (data from
`create_example_countries_and_cities`). -/
def melbourne : City :=
  ⟨"Melbourne", ((-37.8136 : ℝ), (144.9631 : ℝ)), ⟨"Australia", "AUS"⟩,
    CapitalType.admin, "1036533631"⟩

/-- Tokyo, the `primary` capital of Japan (data from
`create_example_countries_and_cities`). -/
def tokyo : City :=
  ⟨"Tokyo", ((35.6839 : ℝ), (139.7744 : ℝ)), ⟨"Japan", "JPN"⟩,
    CapitalType.primary, "1392685764"⟩

/-- Vehicle whose every leg is impossible, used by witnesses. -/
def vehicleAllTop : Vehicle := ⟨fun _ _ => ⊤⟩

/-- Vehicle whose every leg takes two hours, used by witnesses. -/
def vehicleTwo : Vehicle := ⟨fun _ _ => ((2 : ℤ) : TravelTime)⟩

/-- C7: great-circle city distance is symmetric, and the distance from a city
to itself is zero. -/
theorem c7_distance_symm_and_self (a b : City) :
    a.distance b = b.distance a ∧ a.distance a = 0 :=
  ⟨City.distance_comm a b, City.distance_self a⟩

/-- C10: `Country.get_cities` with an explicitly empty list of capital types
returns all cities of the country, the same as calling it with no filter. -/
theorem c10_get_cities_empty_filter (cities : List City) :
    Country.get_cities cities (some []) = cities ∧
    Country.get_cities cities (some []) = Country.get_cities cities none := by
  constructor <;> simp [Country.get_cities]

/-- C8: registering a country name that is already present silently
overwrites the registry entry, so a subsequent lookup by that name returns
the most recently constructed instance. -/
theorem c8_register_overwrites (reg : Registry) (name iso3 : String)
    (c : Country) (_h : reg name = some c) :
    (Country.init name iso3 reg).2 name = some (Country.init name iso3 reg).1 := by
  simp [Country.init]

/-- Witness for C8: "France" is registered with code "fra", then re-registered
with code "gau"; the lookup returns the second instance, which differs from
the first. -/
theorem c8_register_overwrites_witness :
    ((Country.init "France" "fra" fun _ => none).2) "France" =
      some (Country.init "France" "fra" fun _ => none).1 ∧
    ((Country.init "France" "gau" (Country.init "France" "fra" fun _ => none).2).2) "France" =
      some (Country.init "France" "gau" (Country.init "France" "fra" fun _ => none).2).1 ∧
    (Country.init "France" "gau" (Country.init "France" "fra" fun _ => none).2).1 ≠
      (Country.init "France" "fra" fun _ => none).1 := by
  refine ⟨by simp [Country.init], ?_, by simp [Country.init]; decide⟩
  exact c8_register_overwrites _ "France" "gau"
    (Country.init "France" "fra" fun _ => none).1 (by simp [Country.init])

/-- C3 counterexample: constructing each vehicle variant with a non-positive
numeric parameter succeeds and produces a vehicle object storing that
parameter — no ConfigurationError exists anywhere in the source, and the
constructors perform no validation. -/
theorem c3_counterexample :
    (CrappyCrepeCar.init (-5)).speed = -5 ∧
    (DiplomacyDonutDinghy.init 0 (-3)).in_country_speed = 0 ∧
    (TeleportingTarteTrolley.init (-1) 0).travel_time = -1 :=
  ⟨rfl, rfl, rfl⟩

/-- C3 amended: vehicle constructors accept every numeric parameter,
including non-positive ones, and simply store the parameters; construction
always produces a vehicle object and never fails. -/
theorem c3_constructors_store_parameters (s a b tt m : ℤ) :
    (CrappyCrepeCar.init s).speed = s ∧
    (DiplomacyDonutDinghy.init a b).in_country_speed = a ∧
    (DiplomacyDonutDinghy.init a b).between_primary_speed = b ∧
    (TeleportingTarteTrolley.init tt m).travel_time = tt ∧
    (TeleportingTarteTrolley.init tt m).max_distance = m :=
  ⟨rfl, rfl, rfl, rfl, rfl⟩

/-- C6: a TeleportingTarteTrolley's travel time is infinite exactly when the
distance is at least `max_distance` (the boundary case is impossible), and is
the constant `travel_time` whenever the distance is strictly below
`max_distance`. -/
theorem c6_trolley_range (v : TeleportingTarteTrolley) (a b : City) :
    (v.compute_travel_time a b = ⊤ ↔ v.max_distance ≤ a.distance b) ∧
    (a.distance b < v.max_distance →
      v.compute_travel_time a b = (v.travel_time : TravelTime)) := by
  unfold TeleportingTarteTrolley.compute_travel_time
  constructor
  · by_cases h : v.max_distance ≤ a.distance b
    · simp [h]
    · simp [h]
  · intro h
    rw [if_neg (not_le.mpr h)]

/-- Witness for C6: a trolley with `travel_time` 3 and `max_distance` 5 on a
zero-length leg takes exactly 3 hours. -/
theorem c6_trolley_range_witness :
    cityA.distance cityA < (TeleportingTarteTrolley.init 3 5).max_distance ∧
    (TeleportingTarteTrolley.init 3 5).compute_travel_time cityA cityA =
      (((TeleportingTarteTrolley.init 3 5).travel_time : ℤ) : TravelTime) := by
  have h : cityA.distance cityA < (TeleportingTarteTrolley.init 3 5).max_distance := by
    rw [City.distance_self]
    decide
  exact ⟨h, (c6_trolley_range (TeleportingTarteTrolley.init 3 5) cityA cityA).2 h⟩

/-- C5: a DiplomacyDonutDinghy's travel time is finite exactly when the two
cities share a country or are both primary capitals; in the same-country case
it is `ceil(d / in_country_speed)`, in the cross-country both-primary case it
is `ceil(d / between_primary_speed)`, and otherwise it is infinite. -/
theorem c5_dinghy_rules (v : DiplomacyDonutDinghy) (a b : City) :
    (v.compute_travel_time a b ≠ ⊤ ↔
      a.country = b.country ∨
        (a.capital_type = CapitalType.primary ∧
          b.capital_type = CapitalType.primary)) ∧
    (a.country = b.country →
      v.compute_travel_time a b =
        ((⌈(a.distance b : ℝ) / (v.in_country_speed : ℝ)⌉ : ℤ) : TravelTime)) ∧
    ((a.country ≠ b.country ∧ a.capital_type = CapitalType.primary ∧
        b.capital_type = CapitalType.primary) →
      v.compute_travel_time a b =
        ((⌈(a.distance b : ℝ) / (v.between_primary_speed : ℝ)⌉ : ℤ) : TravelTime)) ∧
    (¬(a.country = b.country ∨
        (a.capital_type = CapitalType.primary ∧
          b.capital_type = CapitalType.primary)) →
      v.compute_travel_time a b = ⊤) := by
  unfold DiplomacyDonutDinghy.compute_travel_time
  by_cases hc : a.country = b.country
  · simp [hc]
  · by_cases hp : a.capital_type = CapitalType.primary ∧
        b.capital_type = CapitalType.primary
    · simp [hc, hp.1, hp.2]
    · rw [Decidable.not_and_iff_or_not] at hp
      rcases hp with hp | hp <;> simp [hc, hp]

/-- Witness for C5: two cities of the same country, a dinghy with in-country
speed 2 — the travel time is `ceil(d / 2)`. -/
theorem c5_dinghy_rules_witness :
    cityA.country = cityB.country ∧
    (DiplomacyDonutDinghy.init 2 7).compute_travel_time cityA cityB =
      ((⌈(cityA.distance cityB : ℝ) /
          (((DiplomacyDonutDinghy.init 2 7).in_country_speed : ℤ) : ℝ)⌉ : ℤ) : TravelTime) :=
  ⟨rfl, (c5_dinghy_rules (DiplomacyDonutDinghy.init 2 7) cityA cityB).2.1 rfl⟩

/-- Leg times of a city sequence, the list form of `Trip.legTimes`. -/
theorem legTimes_def (t : Trip) (v : Vehicle) :
    t.legTimes v =
      (t.sequence.zip t.sequence.tail).map fun p => v.compute_travel_time p.1 p.2 :=
  rfl

/-- Behaviour of the `total_travel_time` loop: infinite as soon as some leg is
infinite, and the plain sum of the leg times when every leg is finite. -/
theorem totalTravelTimeAux_spec (v : Vehicle) :
    ∀ l : List City,
      (⊤ ∈ (l.zip l.tail).map (fun p => v.compute_travel_time p.1 p.2) →
        totalTravelTimeAux v l = ⊤) ∧
      (⊤ ∉ (l.zip l.tail).map (fun p => v.compute_travel_time p.1 p.2) →
        totalTravelTimeAux v l =
          ((l.zip l.tail).map (fun p => v.compute_travel_time p.1 p.2)).sum)
  | [] => by simp [totalTravelTimeAux]
  | [a] => by simp [totalTravelTimeAux]
  | a :: b :: rest => by
      have ih := totalTravelTimeAux_spec v (b :: rest)
      have hzip : ((a :: b :: rest).zip (a :: b :: rest).tail).map
            (fun p => v.compute_travel_time p.1 p.2) =
          v.compute_travel_time a b ::
            ((b :: rest).zip (b :: rest).tail).map
              (fun p => v.compute_travel_time p.1 p.2) := rfl
      rw [hzip]
      constructor
      · intro hmem
        rw [List.mem_cons] at hmem
        unfold totalTravelTimeAux
        by_cases htop : v.compute_travel_time a b = ⊤
        · simp [htop]
        · rcases hmem with hmem | hmem
          · exact absurd hmem.symm htop
          · simp only [htop, if_false]
            rw [ih.1 hmem, add_top]
      · intro hmem
        rw [List.mem_cons] at hmem
        push_neg at hmem
        unfold totalTravelTimeAux
        simp only [Ne.symm hmem.1, if_false]
        rw [ih.2 hmem.2, List.sum_cons]

/-- C4: for every trip and vehicle, `total_travel_time` is infinite as soon as
any leg's travel time is infinite, equals the sum of the leg times when every
leg is finite, and is zero for a single-city trip. -/
theorem c4_total_travel_time (t : Trip) (v : Vehicle) :
    (⊤ ∈ t.legTimes v → t.total_travel_time v = ⊤) ∧
    (⊤ ∉ t.legTimes v → t.total_travel_time v = (t.legTimes v).sum) ∧
    (∀ c : City, (Trip.init c).total_travel_time v = 0) :=
  ⟨(totalTravelTimeAux_spec v t.sequence).1,
    (totalTravelTimeAux_spec v t.sequence).2,
    fun _ => rfl⟩

/-- Witness for C4: on the two-city trip Alpha → Beta, the all-impossible
vehicle gives an infinite total, the constant two-hour vehicle gives the sum
of its single leg, and a single-city trip costs zero. -/
theorem c4_total_travel_time_witness :
    (⊤ ∈ ((Trip.init cityA).add_next_city cityB).legTimes vehicleAllTop ∧
      ((Trip.init cityA).add_next_city cityB).total_travel_time vehicleAllTop = ⊤) ∧
    (⊤ ∉ ((Trip.init cityA).add_next_city cityB).legTimes vehicleTwo ∧
      ((Trip.init cityA).add_next_city cityB).total_travel_time vehicleTwo =
        (((Trip.init cityA).add_next_city cityB).legTimes vehicleTwo).sum) ∧
    (Trip.init cityA).total_travel_time vehicleTwo = 0 := by
  have h1 : ⊤ ∈ ((Trip.init cityA).add_next_city cityB).legTimes vehicleAllTop := by
    simp [Trip.legTimes, Trip.init, Trip.add_next_city, vehicleAllTop]
  have h2 : ⊤ ∉ ((Trip.init cityA).add_next_city cityB).legTimes vehicleTwo := by
    simp [Trip.legTimes, Trip.init, Trip.add_next_city, vehicleTwo]
  exact ⟨⟨h1, (c4_total_travel_time ((Trip.init cityA).add_next_city cityB) vehicleAllTop).1 h1⟩,
    ⟨h2, (c4_total_travel_time ((Trip.init cityA).add_next_city cityB) vehicleTwo).2.1 h2⟩,
    (c4_total_travel_time ((Trip.init cityA).add_next_city cityB) vehicleTwo).2.2 cityA⟩

/-- Helper: scanning the vehicles paired with their travel times finds a pair
whenever the sought value occurs among the times. -/
theorem find?_zip_map_isSome {α β : Type} [DecidableEq β] (f : α → β) (m : β) :
    ∀ l : List α, m ∈ l.map f →
      ((l.zip (l.map f)).find? fun p => p.2 = m).isSome
  | [], h => absurd h (by simp)
  | a :: l, h => by
      rw [List.map_cons, List.zip_cons_cons, List.find?_cons]
      by_cases hfa : f a = m
      · simp [hfa]
      · have hm : m ∈ l.map f := by
          rcases List.mem_cons.mp h with h1 | h1
          · exact absurd h1.symm hfa
          · exact h1
        have ih := find?_zip_map_isSome f m l hm
        simpa [hfa] using ih

/-- C9: `find_fastest_vehicle` on an empty vehicle list does not return a
(vehicle, hours) pair — Python's `min` of an empty sequence raises — while a
non-empty vehicle list always produces a pair. -/
theorem c9_fastest_needs_nonempty (t : Trip) (vehicles : List Vehicle) :
    t.find_fastest_vehicle [] = none ∧
    (vehicles ≠ [] → ∃ r, t.find_fastest_vehicle vehicles = some r) := by
  constructor
  · rfl
  · intro hne
    obtain ⟨m, hm⟩ :
        ∃ m, (vehicles.map fun v => t.total_travel_time v).min? = some m := by
      cases vehicles with
      | nil => exact absurd rfl hne
      | cons v vs => exact ⟨_, rfl⟩
    have hmem : m ∈ vehicles.map fun v => t.total_travel_time v :=
      List.min?_mem (fun a b => min_choice a b) hm
    have hsome := find?_zip_map_isSome (fun v => t.total_travel_time v) m vehicles hmem
    obtain ⟨p, hp⟩ := Option.isSome_iff_exists.mp hsome
    refine ⟨(p.1, m), ?_⟩
    unfold Trip.find_fastest_vehicle
    dsimp only
    rw [hm]
    dsimp only
    rw [hp]

/-- Witness for C9: the Alpha → Beta trip with the singleton list holding the
two-hour vehicle yields a pair, and the empty list yields none. -/
theorem c9_fastest_needs_nonempty_witness :
    ((Trip.init cityA).add_next_city cityB).find_fastest_vehicle [] = none ∧
    ([vehicleTwo] ≠ ([] : List Vehicle)) ∧
    ∃ r, ((Trip.init cityA).add_next_city cityB).find_fastest_vehicle [vehicleTwo] = some r :=
  ⟨(c9_fastest_needs_nonempty ((Trip.init cityA).add_next_city cityB) [vehicleTwo]).1,
    by simp,
    (c9_fastest_needs_nonempty ((Trip.init cityA).add_next_city cityB) [vehicleTwo]).2
      (by simp)⟩

/-- C2 evaluation: on the Melbourne → Tokyo trip, where the only candidate
vehicle (a DiplomacyDonutDinghy — Melbourne is not a primary capital) has an
infinite total travel time, `find_fastest_vehicle` returns that vehicle
paired with infinity, not the documented `(None, inf)`: the scan for the
first time equal to the minimum also matches `inf == inf`. -/
theorem c2_all_infinite_returns_first_vehicle :
    ((Trip.init melbourne).add_next_city tokyo).find_fastest_vehicle
        [(DiplomacyDonutDinghy.init 100 500).toVehicle] =
      some ((DiplomacyDonutDinghy.init 100 500).toVehicle, ⊤) := by
  have hcond : ¬(melbourne.country = tokyo.country) ∧
      (melbourne.capital_type ≠ CapitalType.primary ∨
        tokyo.capital_type ≠ CapitalType.primary) := by
    constructor
    · intro hc
      exact absurd (congrArg Country.name hc) (by decide)
    · exact Or.inl (by decide)
  have h0 : (DiplomacyDonutDinghy.init 100 500).toVehicle.compute_travel_time
      melbourne tokyo = ⊤ := by
    show (DiplomacyDonutDinghy.init 100 500).compute_travel_time melbourne tokyo = ⊤
    unfold DiplomacyDonutDinghy.compute_travel_time
    exact if_pos hcond
  have htotal : ((Trip.init melbourne).add_next_city tokyo).total_travel_time
      (DiplomacyDonutDinghy.init 100 500).toVehicle = ⊤ := by
    show totalTravelTimeAux _ [melbourne, tokyo] = ⊤
    unfold totalTravelTimeAux
    rw [h0]
    simp
  unfold Trip.find_fastest_vehicle
  dsimp only
  rw [List.map_singleton, htotal]
  rfl

/-- C1 evaluation: every edge that `plot_graph_for_vehicle` adds carries the
weight `False` (numerically 0) — the walrus expression binds the `== inf`
comparison, not the travel time — so the graph handed to `dijkstra_path` is
never weighted by the finite travel times, and the returned trip need not
minimise `total_travel_time`. -/
theorem c1_graph_weights_all_false (vehicle : Vehicle) (cities : List City) :
    (plot_graph_for_vehicle vehicle cities).all (fun e => !e.2.2) = true := by
  rw [List.all_eq_true]
  intro e he
  unfold plot_graph_for_vehicle at he
  rcases List.mem_filterMap.mp he with ⟨p, _, hf⟩
  dsimp only at hf
  by_cases h : vehicle.compute_travel_time p.1 p.2 = ⊤
  · rw [decide_eq_true h] at hf
    simp at hf
  · rw [decide_eq_false h] at hf
    simp only [Bool.false_eq_true, if_false, Option.some.injEq] at hf
    subst hf
    rfl

end Assignment
